import Mathlib

/-!
Verification of the bootstrap orchestrator in `internal/pkg/cli/init.go`.

The Go code is shallowly embedded: every collaborator (project registry,
environment registry, environment deployer, workspace, prompter, progress
reporter) is represented by a `World` record of response functions, and each
orchestrator phase is a pure Lean function from the request (`InitAppOpts`)
and the `World` to its result together with the ordered list of collaborator
calls it performs (`List Call`).

Go multi-value returns are kept faithfully: a call whose non-error result the
caller only reads on success is an `Except`; `prompter.Confirm`, whose boolean
result the caller reads even when the error is non-nil, is a pair
`Bool × Option GoErr`; statements of the form `xs, _ := f()` keep the ignored
error component in the model and discard it exactly where the Go code does.
-/

namespace Archer

/-- A project record (`archer.Project`): just a name. -/
structure Project where
  Name : String

/-- An environment record (`archer.Environment`) as used by `init.go`. -/
structure Environment where
  Project : String
  Name : String
  PublicLoadBalancer : Bool

/-- A workspace summary (`archer.WorkspaceSummary`): the bound project name. -/
structure Summary where
  ProjectName : String

/-- Go `error` values that flow through `init.go`, as a closed datatype.
Leaf collaborator failures are `collaborator n`; the two specially recognized
provider errors (`store.ErrProjectAlreadyExists`,
`cloudformation.ErrStackAlreadyExists`) and the sentinel `errValueEmpty` get
their own constructors, as do the `fmt.Errorf` wrappings `init.go` creates. -/
inductive GoErr where
  | valueEmpty
  | badFormat (value : String)
  | projectAlreadyExists (projectName : String)
  | stackAlreadyExists (stackName : String)
  | projectNameInvalid (e : GoErr)
  | appNameInvalid (e : GoErr)
  | failedGetProjectSelection (e : GoErr)
  | failedGetProjectName (e : GoErr)
  | failedGetAppName (e : GoErr)
  | failedGetTemplateSelection (e : GoErr)
  | failedGenerateManifest (e : GoErr)
  | failedMarshalManifest (e : GoErr)
  | collaborator (n : Nat)
deriving DecidableEq

/-- `errors.As(err, &projectAlreadyExistsError)` on a possibly-nil error. -/
def errAsProjectAlreadyExists : Option GoErr → Bool
  | some (.projectAlreadyExists _) => true
  | _ => false

/-- `errors.As(err, &existsErr)` for `cloudformation.ErrStackAlreadyExists`
on a possibly-nil error. -/
def errAsStackAlreadyExists : Option GoErr → Bool
  | some (.stackAlreadyExists _) => true
  | _ => false

/-- The sentinel `errValueEmpty` compared against with `!=` in `Validate`. -/
def errValueEmpty : GoErr := .valueEmpty

/-- Modelled from the spec: the syntactic name validator shared by
`validateProjectName` and `validateApplicationName` (their definitions are in
a file of this repository outside the sampled slice). Per the spec, it rejects
the empty string distinctly (with `errValueEmpty`) from every other violation,
and otherwise applies a DNS-safe syntactic rule, modelled here as lowercase
ASCII letters, digits and hyphens. -/
def validateName (s : String) : Option GoErr :=
  if s = "" then some errValueEmpty
  else if s.toList.all (fun c => c.isLower || c.isDigit || c = '-') then none
  else some (.badFormat s)

/-- Modelled from the spec: `validateProjectName` (outside the sampled slice). -/
def validateProjectName (s : String) : Option GoErr := validateName s

/-- Modelled from the spec: `validateApplicationName` (outside the sampled slice). -/
def validateApplicationName (s : String) : Option GoErr := validateName s

/-- Modelled from the spec: `manifest.LoadBalancedWebApplication`, the single
supported template kind (its definition is outside the sampled slice; the
exact string value is irrelevant to the orchestrator's logic). -/
def LoadBalancedWebApplication : String := "Load Balanced Web App"

/-- `const defaultEnvironmentName = "test"`. -/
def defaultEnvironmentName : String := "test"

/-- The request object `InitAppOpts` (its exported and staged fields; the
collaborator handles live in `World`). -/
structure InitAppOpts where
  Project : String
  AppName : String
  AppType : String
  ShouldDeploy : Bool
  ShouldSkipDeploy : Bool
  existingProjects : List String

/-- One collaborator call, recorded in program order. -/
inductive Call where
  | wsSummary
  | listProjects
  | createProject (p : Project)
  | wsCreate (projectName : String)
  | writeManifest (bytes : String) (appName : String)
  | listEnvironments (projectName : String)
  | confirm (question help : String)
  | promptGet (question help : String)
  | promptSelectOne (question help : String) (options : List String)
  | deployEnvironment (env : Environment)
  | waitForEnvironmentCreation (env : Environment)
  | createEnvironment (env : Environment)
  | progStart (label : String)
  | progStop (label : String)

/-- The responses of all collaborators: one field per interface operation used
by `init.go`. `listProjects` and `listEnvironments` are Go multi-value
returns (slice, error); `confirm` is (bool, error). -/
structure World where
  wsSummary : Except GoErr Summary
  listProjects : List Project × Option GoErr
  createProject : Project → Option GoErr
  wsCreate : String → Option GoErr
  manifestCreate : String → String → Except GoErr String
  manifestMarshal : String → Except GoErr String
  writeManifest : String → String → Option GoErr
  listEnvironments : String → List Environment × Option GoErr
  confirm : String → String → Bool × Option GoErr
  promptGet : String → String → Except GoErr String
  promptSelectOne : String → String → List String → Except GoErr String
  deployEnvironment : Environment → Option GoErr
  waitForEnvironmentCreation : Environment → Option GoErr
  createEnvironment : Environment → Option GoErr

/-- Prompt text of `prompter.Get` for the application name. -/
def appNamePrompt : String := "What is your application\x27s name?"

/-- Help text of `prompter.Get` for the application name. -/
def appNameHelp : String :=
  "Collection of AWS services to achieve a business capability. Must be unique within a project."

/-- Prompt text of `prompter.SelectOne` for the template kind. -/
def templatePrompt : String := "Which template would you like to use?"

/-- Help text of `prompter.SelectOne` for the template kind. -/
def templateHelp : String := "Pre-defined infrastructure templates."

/-- Prompt text of `prompter.SelectOne` over existing projects. -/
def whichProjectPrompt : String := "Which project should we use?"

/-- Help text of `prompter.SelectOne` over existing projects. -/
def whichProjectHelp : String :=
  "Choose a project to create a new application in. Applications in the same project share the same VPC, ECS Cluster and are discoverable via service discovery"

/-- Prompt text of `prompter.Get` for a fresh project name. -/
def projectNamePrompt : String := "What is your project\x27s name?"

/-- Help text of `prompter.Get` for a fresh project name. -/
def projectNameHelp : String :=
  "Applications under the same project share the same VPC and ECS Cluster and are discoverable via service discovery."

/-- Prompt text of `prompter.Confirm` in `deployEnv`. -/
def confirmEnvPrompt : String := "Would you like to set up a test environment?"

/-- Help text of `prompter.Confirm` in `deployEnv`. -/
def confirmEnvHelp : String := "You can deploy your app into your test environment."

/-- Spinner label started before `DeployEnvironment`. -/
def preparingLabel : String := "Preparing deployment..."

/-- Spinner label started before `WaitForEnvironmentCreation`. -/
def deployingLabel : String := "Deploying env..."

/-- Spinner label on success. -/
def doneLabel : String := "Done!"

/-- Spinner label on failure. -/
def errorLabel : String := "Error!"

/-- `Prepare` (`init.go` lines 125-143): resolve the project name from the
supplied flag, else the workspace summary, else stage the registry's project
list (ignoring the listing error, `existingProjects, _ := ...ListProjects()`).
It has no error return at all. -/
def Prepare (opts : InitAppOpts) (w : World) : InitAppOpts × List Call :=
  if opts.Project ≠ "" then
    (opts, [])
  else
    match w.wsSummary with
    | .ok summary => ({ opts with Project := summary.ProjectName }, [Call.wsSummary])
    | .error _ =>
      let existingProjects := (w.listProjects).1
      ({ opts with existingProjects := existingProjects.map Project.Name },
       [Call.wsSummary, Call.listProjects])

/-- `Validate` (`init.go` lines 112-122): reject a name that fails its
validator with anything but the sentinel `errValueEmpty`. -/
def Validate (opts : InitAppOpts) : Option GoErr :=
  match validateProjectName opts.Project with
  | some e =>
    if e ≠ errValueEmpty then some (.projectNameInvalid e)
    else
      match validateApplicationName opts.AppName with
      | some e2 => if e2 ≠ errValueEmpty then some (.appNameInvalid e2) else none
      | none => none
  | none =>
    match validateApplicationName opts.AppName with
    | some e2 => if e2 ≠ errValueEmpty then some (.appNameInvalid e2) else none
    | none => none

/-- `projectQuestion` (`init.go` lines 81-109). The Go `Get` call passes
`validateProjectName` to the prompter; the validator only constrains what the
prompter hands back, so it is part of the prompter's modelled behavior. -/
def projectQuestion (opts : InitAppOpts) (w : World) :
    Option GoErr × InitAppOpts × List Call :=
  if opts.existingProjects.length > 0 then
    match w.promptSelectOne whichProjectPrompt whichProjectHelp opts.existingProjects with
    | .error e =>
      (some (.failedGetProjectSelection e), opts,
       [Call.promptSelectOne whichProjectPrompt whichProjectHelp opts.existingProjects])
    | .ok projectName =>
      (none, { opts with Project := projectName },
       [Call.promptSelectOne whichProjectPrompt whichProjectHelp opts.existingProjects])
  else
    match w.promptGet projectNamePrompt projectNameHelp with
    | .error e =>
      (some (.failedGetProjectName e), opts,
       [Call.promptGet projectNamePrompt projectNameHelp])
    | .ok projectName =>
      (none, { opts with Project := projectName },
       [Call.promptGet projectNamePrompt projectNameHelp])

/-- `Ask` (`init.go` lines 46-79): prompt for each still-empty field, aborting
on the first prompt failure. -/
def Ask (opts : InitAppOpts) (w : World) : Option GoErr × InitAppOpts × List Call :=
  let step1 : Option GoErr × InitAppOpts × List Call :=
    if opts.Project = "" then projectQuestion opts w else (none, opts, [])
  match step1 with
  | (some e, opts1, t1) => (some e, opts1, t1)
  | (none, opts1, t1) =>
    let step2 : Option GoErr × InitAppOpts × List Call :=
      if opts1.AppName = "" then
        match w.promptGet appNamePrompt appNameHelp with
        | .error e =>
          (some (.failedGetAppName e), opts1, [Call.promptGet appNamePrompt appNameHelp])
        | .ok name =>
          (none, { opts1 with AppName := name }, [Call.promptGet appNamePrompt appNameHelp])
      else (none, opts1, [])
    match step2 with
    | (some e, opts2, t2) => (some e, opts2, t1 ++ t2)
    | (none, opts2, t2) =>
      if opts2.AppType = "" then
        match w.promptSelectOne templatePrompt templateHelp [LoadBalancedWebApplication] with
        | .error e =>
          (some (.failedGetTemplateSelection e), opts2,
           t1 ++ t2 ++ [Call.promptSelectOne templatePrompt templateHelp [LoadBalancedWebApplication]])
        | .ok t =>
          (none, { opts2 with AppType := t },
           t1 ++ t2 ++ [Call.promptSelectOne templatePrompt templateHelp [LoadBalancedWebApplication]])
      else (none, opts2, t1 ++ t2)

/-- `createProject` (`init.go` lines 177-188): tolerate exactly the
project-already-exists failure of the registry create. -/
def createProject (opts : InitAppOpts) (w : World) : Option GoErr × List Call :=
  let err := w.createProject { Name := opts.Project }
  (if !errAsProjectAlreadyExists err then err else none,
   [Call.createProject { Name := opts.Project }])

/-- `createApp` (`init.go` lines 165-175): derive the manifest, marshal it,
write it into the workspace keyed by the application name. -/
def createApp (opts : InitAppOpts) (w : World) : Option GoErr × List Call :=
  match w.manifestCreate opts.AppName opts.AppType with
  | .error e => (some (.failedGenerateManifest e), [])
  | .ok m =>
    match w.manifestMarshal m with
    | .error e => (some (.failedMarshalManifest e), [])
    | .ok bytes =>
      (w.writeManifest bytes opts.AppName, [Call.writeManifest bytes opts.AppName])

/-- The environment literal built in `deployEnv` (`init.go` lines 218-222). -/
def mkDefaultEnv (projectName : String) : Environment :=
  { Project := projectName, Name := defaultEnvironmentName, PublicLoadBalancer := true }

/-- `deployEnv` (`init.go` lines 191-248). Note the Go
`deployEnv, err := opts.prompter.Confirm(...)` reassigns the boolean in the
same scope and then ignores `err` (the empty `if err != nil` body), so the
branch taken depends only on the boolean component of the prompter's reply. -/
def deployEnv (opts : InitAppOpts) (w : World) : Option GoErr × List Call :=
  if opts.ShouldSkipDeploy then (none, [])
  else
    let existingEnvs := (w.listEnvironments opts.Project).1
    let t0 : List Call := [Call.listEnvironments opts.Project]
    if existingEnvs.length > 0 then (none, t0)
    else
      let deployAns := (w.confirm confirmEnvPrompt confirmEnvHelp).1
      let t1 := t0 ++ [Call.confirm confirmEnvPrompt confirmEnvHelp]
      if !deployAns then (none, t1)
      else
        let env := mkDefaultEnv opts.Project
        let t2 := t1 ++ [Call.progStart preparingLabel, Call.deployEnvironment env]
        match w.deployEnvironment env with
        | some e =>
          if errAsStackAlreadyExists (some e) then (none, t2 ++ [Call.progStop doneLabel])
          else (some e, t2 ++ [Call.progStop errorLabel])
        | none =>
          let t3 := t2 ++ [Call.progStop doneLabel, Call.progStart deployingLabel,
                           Call.waitForEnvironmentCreation env]
          match w.waitForEnvironmentCreation env with
          | some e => (some e, t3 ++ [Call.progStop errorLabel])
          | none =>
            let t4 := t3 ++ [Call.createEnvironment env]
            match w.createEnvironment env with
            | some e => (some e, t4 ++ [Call.progStop errorLabel])
            | none => (none, t4 ++ [Call.progStop doneLabel])

/-- `Execute` (`init.go` lines 146-164): re-validate the project name, then
createProject, workspace create, createApp, deployEnv, first error wins. -/
def Execute (opts : InitAppOpts) (w : World) : Option GoErr × List Call :=
  match validateProjectName opts.Project with
  | some e => (some e, [])
  | none =>
    match createProject opts w with
    | (some e, t1) => (some e, t1)
    | (none, t1) =>
      match w.wsCreate opts.Project with
      | some e => (some e, t1 ++ [Call.wsCreate opts.Project])
      | none =>
        let t2 := t1 ++ [Call.wsCreate opts.Project]
        match createApp opts w with
        | (some e, t3) => (some e, t2 ++ t3)
        | (none, t3) =>
          let (e4, t4) := deployEnv opts w
          (e4, t2 ++ t3 ++ t4)

/-- Calls addressed to the environment deployer or the environment registry:
the three deployment steps of `deployEnv`. -/
def isDeployStepCall : Call → Bool
  | .deployEnvironment _ => true
  | .waitForEnvironmentCreation _ => true
  | .createEnvironment _ => true
  | _ => false

/-- Calls addressed to the deployer's wait step or the environment registry:
the two steps after begin-deploy. -/
def isLateDeployStepCall : Call → Bool
  | .waitForEnvironmentCreation _ => true
  | .createEnvironment _ => true
  | _ => false

/-- Confirmation-prompt calls. -/
def isConfirmCall : Call → Bool
  | .confirm _ _ => true
  | _ => false

/-- Environment-registry create calls. -/
def isCreateEnvCall : Call → Bool
  | .createEnvironment _ => true
  | _ => false

/-- A concrete request: all fields supplied, no deploy-intent flag set. -/
def optsBase : InitAppOpts :=
  { Project := "demo", AppName := "api", AppType := "lb",
    ShouldDeploy := false, ShouldSkipDeploy := false, existingProjects := [] }

/-- `optsBase` with the skip-deploy flag set. -/
def optsSkip : InitAppOpts := { optsBase with ShouldSkipDeploy := true }

/-- `optsBase` with an empty project name. -/
def optsNoProj : InitAppOpts := { optsBase with Project := "" }

/-- A concrete world in which every collaborator call succeeds (the workspace
is not yet bound to a project, and the user answers yes to the deploy
confirmation). -/
def wBase : World :=
  { wsSummary := .error (.collaborator 0)
    listProjects := ([], none)
    createProject := fun _ => none
    wsCreate := fun _ => none
    manifestCreate := fun a t => .ok (a ++ ":" ++ t)
    manifestMarshal := fun m => .ok m
    writeManifest := fun _ _ => none
    listEnvironments := fun _ => ([], none)
    confirm := fun _ _ => (true, none)
    promptGet := fun _ _ => .ok "demo"
    promptSelectOne := fun _ _ _ => .ok "demo"
    deployEnvironment := fun _ => none
    waitForEnvironmentCreation := fun _ => none
    createEnvironment := fun _ => none }

/-- World where `DeployEnvironment` fails with the stack-already-exists error. -/
def wStackExists : World :=
  { wBase with deployEnvironment := fun _ => some (.stackAlreadyExists "demo-test") }

/-- World where `DeployEnvironment` fails with an ordinary error. -/
def wDeployFails : World :=
  { wBase with deployEnvironment := fun _ => some (.collaborator 6) }

/-- World where `WaitForEnvironmentCreation` fails. -/
def wWaitFails : World :=
  { wBase with waitForEnvironmentCreation := fun _ => some (.collaborator 3) }

/-- World where the confirmation prompt reports an error alongside a `true`
answer and the deployer then fails with an ordinary error. -/
def wPromptErrTrue : World :=
  { wBase with confirm := fun _ _ => (true, some (.collaborator 5)),
               deployEnvironment := fun _ => some (.collaborator 6) }

/-- World where the confirmation prompt reports an error alongside a `false`
answer. -/
def wConfirmNo : World :=
  { wBase with confirm := fun _ _ => (false, some (.collaborator 4)) }

/-- World where the project registry create fails with project-already-exists. -/
def wProjExists : World :=
  { wBase with createProject := fun _ => some (.projectAlreadyExists "demo") }

/-- World where the project registry create fails with an ordinary error. -/
def wProjErr : World :=
  { wBase with createProject := fun _ => some (.collaborator 2) }

/-- World where the environment registry already lists one environment. -/
def wEnvsExist : World :=
  { wBase with listEnvironments := fun p => ([mkDefaultEnv p], none) }

/-- World where the workspace summary reports a bound project. -/
def wSummaryOk : World :=
  { wBase with wsSummary := .ok { ProjectName := "wsproj" } }

/-- World where the workspace summary fails and the project listing fails
(with the conventional empty slice). -/
def wListFails : World :=
  { wBase with listProjects := ([], some (.collaborator 9)) }

/-- On the accepted-deploy path, a begin-deploy failure other than
stack-already-exists makes `deployEnv` return that error after exactly the
calls up to begin-deploy. -/
theorem deployEnv_deploy_fails_eq (opts : InitAppOpts) (w : World)
    (hskip : opts.ShouldSkipDeploy = false)
    (henvs : (w.listEnvironments opts.Project).1 = [])
    (hyes : (w.confirm confirmEnvPrompt confirmEnvHelp).1 = true)
    (e : GoErr) (hd : w.deployEnvironment (mkDefaultEnv opts.Project) = some e)
    (hns : errAsStackAlreadyExists (some e) = false) :
    deployEnv opts w =
      (some e,
       [Call.listEnvironments opts.Project, Call.confirm confirmEnvPrompt confirmEnvHelp,
        Call.progStart preparingLabel, Call.deployEnvironment (mkDefaultEnv opts.Project),
        Call.progStop errorLabel]) := by
  simp [deployEnv, hskip, henvs, hyes, hd, hns]

/-- On the accepted-deploy path, a begin-deploy failure with
stack-already-exists makes `deployEnv` return success after exactly the calls
up to begin-deploy. -/
theorem deployEnv_stack_exists_eq (opts : InitAppOpts) (w : World)
    (hskip : opts.ShouldSkipDeploy = false)
    (henvs : (w.listEnvironments opts.Project).1 = [])
    (hyes : (w.confirm confirmEnvPrompt confirmEnvHelp).1 = true)
    (e : GoErr) (hd : w.deployEnvironment (mkDefaultEnv opts.Project) = some e)
    (hst : errAsStackAlreadyExists (some e) = true) :
    deployEnv opts w =
      (none,
       [Call.listEnvironments opts.Project, Call.confirm confirmEnvPrompt confirmEnvHelp,
        Call.progStart preparingLabel, Call.deployEnvironment (mkDefaultEnv opts.Project),
        Call.progStop doneLabel]) := by
  simp [deployEnv, hskip, henvs, hyes, hd, hst]

/-- On the accepted-deploy path with begin-deploy succeeding, a
wait-for-completion failure makes `deployEnv` return that error after exactly
the calls up to wait-for-completion. -/
theorem deployEnv_wait_fails_eq (opts : InitAppOpts) (w : World)
    (hskip : opts.ShouldSkipDeploy = false)
    (henvs : (w.listEnvironments opts.Project).1 = [])
    (hyes : (w.confirm confirmEnvPrompt confirmEnvHelp).1 = true)
    (hd : w.deployEnvironment (mkDefaultEnv opts.Project) = none)
    (e : GoErr) (hw : w.waitForEnvironmentCreation (mkDefaultEnv opts.Project) = some e) :
    deployEnv opts w =
      (some e,
       [Call.listEnvironments opts.Project, Call.confirm confirmEnvPrompt confirmEnvHelp,
        Call.progStart preparingLabel, Call.deployEnvironment (mkDefaultEnv opts.Project),
        Call.progStop doneLabel, Call.progStart deployingLabel,
        Call.waitForEnvironmentCreation (mkDefaultEnv opts.Project),
        Call.progStop errorLabel]) := by
  simp [deployEnv, hskip, henvs, hyes, hd, hw]

/-- On the accepted-deploy path with begin-deploy and wait-for-completion
succeeding, a registry-create failure makes `deployEnv` return that error. -/
theorem deployEnv_create_fails_eq (opts : InitAppOpts) (w : World)
    (hskip : opts.ShouldSkipDeploy = false)
    (henvs : (w.listEnvironments opts.Project).1 = [])
    (hyes : (w.confirm confirmEnvPrompt confirmEnvHelp).1 = true)
    (hd : w.deployEnvironment (mkDefaultEnv opts.Project) = none)
    (hw : w.waitForEnvironmentCreation (mkDefaultEnv opts.Project) = none)
    (e : GoErr) (hc : w.createEnvironment (mkDefaultEnv opts.Project) = some e) :
    deployEnv opts w =
      (some e,
       [Call.listEnvironments opts.Project, Call.confirm confirmEnvPrompt confirmEnvHelp,
        Call.progStart preparingLabel, Call.deployEnvironment (mkDefaultEnv opts.Project),
        Call.progStop doneLabel, Call.progStart deployingLabel,
        Call.waitForEnvironmentCreation (mkDefaultEnv opts.Project),
        Call.createEnvironment (mkDefaultEnv opts.Project),
        Call.progStop errorLabel]) := by
  simp [deployEnv, hskip, henvs, hyes, hd, hw, hc]

/-- On the accepted-deploy path with all three steps succeeding, `deployEnv`
returns success after all three calls in order. -/
theorem deployEnv_all_ok_eq (opts : InitAppOpts) (w : World)
    (hskip : opts.ShouldSkipDeploy = false)
    (henvs : (w.listEnvironments opts.Project).1 = [])
    (hyes : (w.confirm confirmEnvPrompt confirmEnvHelp).1 = true)
    (hd : w.deployEnvironment (mkDefaultEnv opts.Project) = none)
    (hw : w.waitForEnvironmentCreation (mkDefaultEnv opts.Project) = none)
    (hc : w.createEnvironment (mkDefaultEnv opts.Project) = none) :
    deployEnv opts w =
      (none,
       [Call.listEnvironments opts.Project, Call.confirm confirmEnvPrompt confirmEnvHelp,
        Call.progStart preparingLabel, Call.deployEnvironment (mkDefaultEnv opts.Project),
        Call.progStop doneLabel, Call.progStart deployingLabel,
        Call.waitForEnvironmentCreation (mkDefaultEnv opts.Project),
        Call.createEnvironment (mkDefaultEnv opts.Project),
        Call.progStop doneLabel]) := by
  simp [deployEnv, hskip, henvs, hyes, hd, hw, hc]

/-- Claim C2: deployEnv returns success immediately, without calling the
confirmation prompt or the deployer, (1) whenever the skip-deploy flag is set
(and then the environment registry is not even listed, as the trace is empty),
and (2) whenever the environment registry lists at least one existing
environment for the project, regardless of the deploy-intent flags. -/
theorem deployEnv_short_circuits (opts : InitAppOpts) (w : World) :
    (opts.ShouldSkipDeploy = true → deployEnv opts w = (none, []))
    ∧ ((w.listEnvironments opts.Project).1 ≠ [] →
        (deployEnv opts w).1 = none ∧
        (deployEnv opts w).2.filter (fun c => isConfirmCall c || isDeployStepCall c) = []) := by
  constructor
  · intro h
    simp [deployEnv, h]
  · intro hne
    cases hs : opts.ShouldSkipDeploy with
    | true => simp [deployEnv, hs]
    | false =>
      have hl : 0 < (w.listEnvironments opts.Project).1.length :=
        List.length_pos.mpr hne
      simp [deployEnv, hs, hl, isConfirmCall, isDeployStepCall]

/-- Witness for C2 at concrete inputs: with the skip flag the whole trace is
empty; with one pre-existing environment the result is success and neither the
prompt nor the deployer is called. -/
theorem deployEnv_short_circuits_witness :
    optsSkip.ShouldSkipDeploy = true
    ∧ deployEnv optsSkip wBase = (none, [])
    ∧ (wEnvsExist.listEnvironments optsBase.Project).1 ≠ []
    ∧ (deployEnv optsBase wEnvsExist).1 = none
    ∧ (deployEnv optsBase wEnvsExist).2.filter
        (fun c => isConfirmCall c || isDeployStepCall c) = [] := by
  refine ⟨rfl, (deployEnv_short_circuits optsSkip wBase).1 rfl,
    fun h => List.noConfusion h, ?_, ?_⟩
  · exact ((deployEnv_short_circuits optsBase wEnvsExist).2 fun h => List.noConfusion h).1
  · exact ((deployEnv_short_circuits optsBase wEnvsExist).2 fun h => List.noConfusion h).2

/-- Claim C3: createProject returns success both when the registry create
succeeds and when it fails with the project-already-exists error; any other
registry failure is returned unchanged. -/
theorem createProject_idempotent (opts : InitAppOpts) (w : World) :
    (w.createProject { Name := opts.Project } = none → (createProject opts w).1 = none)
    ∧ (∀ s, w.createProject { Name := opts.Project } = some (.projectAlreadyExists s) →
        (createProject opts w).1 = none)
    ∧ (∀ e, w.createProject { Name := opts.Project } = some e →
        errAsProjectAlreadyExists (some e) = false →
        (createProject opts w).1 = some e) := by
  refine ⟨?_, ?_, ?_⟩
  · intro h
    simp [createProject, h, errAsProjectAlreadyExists]
  · intro s h
    simp [createProject, h, errAsProjectAlreadyExists]
  · intro e h hne
    simp [createProject, h, hne]

/-- Witness for C3 at concrete inputs: a project-already-exists failure is
suppressed, an ordinary registry failure is returned unchanged. -/
theorem createProject_idempotent_witness :
    wProjExists.createProject { Name := optsBase.Project } = some (.projectAlreadyExists "demo")
    ∧ (createProject optsBase wProjExists).1 = none
    ∧ wProjErr.createProject { Name := optsBase.Project } = some (.collaborator 2)
    ∧ (createProject optsBase wProjErr).1 = some (.collaborator 2) :=
  ⟨rfl, (createProject_idempotent optsBase wProjExists).2.1 "demo" rfl, rfl,
   (createProject_idempotent optsBase wProjErr).2.2 (.collaborator 2) rfl rfl⟩

/-- Claim C4: a begin-deploy failure with the stack-already-exists error makes
deployEnv return success without ever calling wait-for-completion or the
environment registry's create; any other begin-deploy failure makes deployEnv
return that error. -/
theorem deployEnv_stack_exists_absorbed (opts : InitAppOpts) (w : World)
    (hskip : opts.ShouldSkipDeploy = false)
    (henvs : (w.listEnvironments opts.Project).1 = [])
    (hyes : (w.confirm confirmEnvPrompt confirmEnvHelp).1 = true) :
    (∀ s, w.deployEnvironment (mkDefaultEnv opts.Project) = some (.stackAlreadyExists s) →
      (deployEnv opts w).1 = none ∧
      (deployEnv opts w).2.filter isLateDeployStepCall = [])
    ∧ (∀ e, w.deployEnvironment (mkDefaultEnv opts.Project) = some e →
        errAsStackAlreadyExists (some e) = false →
        (deployEnv opts w).1 = some e) := by
  constructor
  · intro s hd
    rw [deployEnv_stack_exists_eq opts w hskip henvs hyes _ hd rfl]
    simp [isLateDeployStepCall]
  · intro e hd hns
    rw [deployEnv_deploy_fails_eq opts w hskip henvs hyes e hd hns]

/-- Witness for C4 at concrete inputs: stack-already-exists is absorbed with
no later deploy step called; an ordinary begin-deploy failure is returned. -/
theorem deployEnv_stack_exists_absorbed_witness :
    optsBase.ShouldSkipDeploy = false
    ∧ (wStackExists.listEnvironments optsBase.Project).1 = []
    ∧ (wStackExists.confirm confirmEnvPrompt confirmEnvHelp).1 = true
    ∧ wStackExists.deployEnvironment (mkDefaultEnv optsBase.Project) =
        some (.stackAlreadyExists "demo-test")
    ∧ (deployEnv optsBase wStackExists).1 = none
    ∧ (deployEnv optsBase wStackExists).2.filter isLateDeployStepCall = []
    ∧ (deployEnv optsBase wDeployFails).1 = some (.collaborator 6) := by
  refine ⟨rfl, rfl, rfl, rfl, ?_, ?_, ?_⟩
  · exact ((deployEnv_stack_exists_absorbed optsBase wStackExists rfl rfl rfl).1
      "demo-test" rfl).1
  · exact ((deployEnv_stack_exists_absorbed optsBase wStackExists rfl rfl rfl).1
      "demo-test" rfl).2
  · exact (deployEnv_stack_exists_absorbed optsBase wDeployFails rfl rfl rfl).2
      (.collaborator 6) rfl rfl

/-- Claim C5: Prepare resolves the project field by a fixed priority —
non-empty supplied name: untouched, no collaborator queried; else a successful
workspace summary: its project name adopted, registry listing never consulted;
else the registry list is staged as the candidate list, and a listing failure
(conventional empty slice plus error) stages no candidates instead of
failing (Prepare has no error outcome at all in the model, as in the code). -/
theorem Prepare_priority (opts : InitAppOpts) (w : World) :
    (opts.Project ≠ "" → Prepare opts w = (opts, []))
    ∧ (opts.Project = "" → ∀ s, w.wsSummary = .ok s →
        Prepare opts w = ({ opts with Project := s.ProjectName }, [Call.wsSummary]))
    ∧ (opts.Project = "" → ∀ e, w.wsSummary = .error e →
        Prepare opts w =
          ({ opts with existingProjects := (w.listProjects).1.map Project.Name },
           [Call.wsSummary, Call.listProjects]))
    ∧ (opts.Project = "" → ∀ e e2, w.wsSummary = .error e →
        w.listProjects = ([], some e2) →
        (Prepare opts w).1.existingProjects = []) := by
  refine ⟨?_, ?_, ?_, ?_⟩
  · intro h
    simp [Prepare, h]
  · intro h s hws
    simp [Prepare, h, hws]
  · intro h e hws
    simp [Prepare, h, hws]
  · intro h e e2 hws hlp
    simp [Prepare, h, hws, hlp]

/-- Witness for C5 at concrete inputs: a supplied project name short-circuits;
a bound workspace is adopted without touching the registry; a failed listing
stages no candidates. -/
theorem Prepare_priority_witness :
    optsBase.Project ≠ ""
    ∧ Prepare optsBase wBase = (optsBase, [])
    ∧ optsNoProj.Project = ""
    ∧ wSummaryOk.wsSummary = .ok { ProjectName := "wsproj" }
    ∧ Prepare optsNoProj wSummaryOk =
        ({ optsNoProj with Project := "wsproj" }, [Call.wsSummary])
    ∧ (Prepare optsNoProj wListFails).1.existingProjects = [] := by
  refine ⟨by decide, (Prepare_priority optsBase wBase).1 (by decide), rfl, rfl, ?_, ?_⟩
  · exact (Prepare_priority optsNoProj wSummaryOk).2.1 rfl { ProjectName := "wsproj" } rfl
  · exact (Prepare_priority optsNoProj wListFails).2.2.2 rfl (.collaborator 0)
      (.collaborator 9) rfl rfl

/-- Claim C1 as stated is false on the code: on the accepted-deploy path a
begin-deploy failure does not always return that step's error — when the
failure is the stack-already-exists error, deployEnv returns success (nil)
instead. Concretely: the user accepts the prompt, `DeployEnvironment` fails
with `ErrStackAlreadyExists`, and `deployEnv` returns `none`. -/
theorem deployEnv_sequencing_cex :
    optsBase.ShouldSkipDeploy = false
    ∧ (wStackExists.listEnvironments optsBase.Project).1 = []
    ∧ (wStackExists.confirm confirmEnvPrompt confirmEnvHelp).1 = true
    ∧ wStackExists.deployEnvironment (mkDefaultEnv optsBase.Project) =
        some (.stackAlreadyExists "demo-test")
    ∧ (deployEnv optsBase wStackExists).1 = none
    ∧ (deployEnv optsBase wStackExists).1 ≠ some (.stackAlreadyExists "demo-test") := by
  refine ⟨rfl, rfl, rfl, rfl, rfl, by decide⟩

/-- Claim C1 (amended): once the user accepts the deploy confirmation, the
deployer/registry calls of deployEnv form, in order, a prefix of
begin-deploy, wait-for-completion, registry-create; a failure at any step
prevents every later step and is returned as deployEnv's error — except that
a begin-deploy failure with the stack-already-exists error returns success
instead; in particular, if wait-for-completion fails, deployEnv returns that
error and no environment is registered in the environment registry. -/
theorem deployEnv_sequencing (opts : InitAppOpts) (w : World)
    (hskip : opts.ShouldSkipDeploy = false)
    (henvs : (w.listEnvironments opts.Project).1 = [])
    (hyes : (w.confirm confirmEnvPrompt confirmEnvHelp).1 = true) :
    ((deployEnv opts w).2.filter isDeployStepCall <+:
      [Call.deployEnvironment (mkDefaultEnv opts.Project),
       Call.waitForEnvironmentCreation (mkDefaultEnv opts.Project),
       Call.createEnvironment (mkDefaultEnv opts.Project)])
    ∧ (∀ e, w.deployEnvironment (mkDefaultEnv opts.Project) = some e →
        errAsStackAlreadyExists (some e) = false →
        (deployEnv opts w).1 = some e ∧
        (deployEnv opts w).2.filter isLateDeployStepCall = [])
    ∧ (∀ s, w.deployEnvironment (mkDefaultEnv opts.Project) = some (.stackAlreadyExists s) →
        (deployEnv opts w).1 = none ∧
        (deployEnv opts w).2.filter isLateDeployStepCall = [])
    ∧ (w.deployEnvironment (mkDefaultEnv opts.Project) = none →
        ∀ e, w.waitForEnvironmentCreation (mkDefaultEnv opts.Project) = some e →
          (deployEnv opts w).1 = some e ∧
          (deployEnv opts w).2.filter isCreateEnvCall = [])
    ∧ (w.deployEnvironment (mkDefaultEnv opts.Project) = none →
        w.waitForEnvironmentCreation (mkDefaultEnv opts.Project) = none →
        ∀ e, w.createEnvironment (mkDefaultEnv opts.Project) = some e →
          (deployEnv opts w).1 = some e)
    ∧ (w.deployEnvironment (mkDefaultEnv opts.Project) = none →
        w.waitForEnvironmentCreation (mkDefaultEnv opts.Project) = none →
        w.createEnvironment (mkDefaultEnv opts.Project) = none →
        (deployEnv opts w).1 = none ∧
        (deployEnv opts w).2.filter isDeployStepCall =
          [Call.deployEnvironment (mkDefaultEnv opts.Project),
           Call.waitForEnvironmentCreation (mkDefaultEnv opts.Project),
           Call.createEnvironment (mkDefaultEnv opts.Project)]) := by
  refine ⟨?_, ?_, ?_, ?_, ?_, ?_⟩
  · rcases hd : w.deployEnvironment (mkDefaultEnv opts.Project) with _ | e
    · rcases hw : w.waitForEnvironmentCreation (mkDefaultEnv opts.Project) with _ | e
      · rcases hc : w.createEnvironment (mkDefaultEnv opts.Project) with _ | e
        · rw [deployEnv_all_ok_eq opts w hskip henvs hyes hd hw hc]
          simp [isDeployStepCall]
        · rw [deployEnv_create_fails_eq opts w hskip henvs hyes hd hw e hc]
          simp [isDeployStepCall]
      · rw [deployEnv_wait_fails_eq opts w hskip henvs hyes hd e hw]
        simp [isDeployStepCall]
    · cases hst : errAsStackAlreadyExists (some e)
      · rw [deployEnv_deploy_fails_eq opts w hskip henvs hyes e hd hst]
        simp [isDeployStepCall]
      · rw [deployEnv_stack_exists_eq opts w hskip henvs hyes e hd hst]
        simp [isDeployStepCall]
  · intro e hd hns
    rw [deployEnv_deploy_fails_eq opts w hskip henvs hyes e hd hns]
    simp [isLateDeployStepCall]
  · intro s hd
    rw [deployEnv_stack_exists_eq opts w hskip henvs hyes _ hd rfl]
    simp [isLateDeployStepCall]
  · intro hd e hw
    rw [deployEnv_wait_fails_eq opts w hskip henvs hyes hd e hw]
    simp [isCreateEnvCall]
  · intro hd hw e hc
    rw [deployEnv_create_fails_eq opts w hskip henvs hyes hd hw e hc]
  · intro hd hw hc
    rw [deployEnv_all_ok_eq opts w hskip henvs hyes hd hw hc]
    simp [isDeployStepCall]

/-- Witness for the amended C1 at concrete inputs: with wait-for-completion
failing, deployEnv returns that error and the environment registry's create is
never called. -/
theorem deployEnv_sequencing_witness :
    optsBase.ShouldSkipDeploy = false
    ∧ (wWaitFails.listEnvironments optsBase.Project).1 = []
    ∧ (wWaitFails.confirm confirmEnvPrompt confirmEnvHelp).1 = true
    ∧ wWaitFails.deployEnvironment (mkDefaultEnv optsBase.Project) = none
    ∧ wWaitFails.waitForEnvironmentCreation (mkDefaultEnv optsBase.Project) =
        some (.collaborator 3)
    ∧ (deployEnv optsBase wWaitFails).1 = some (.collaborator 3)
    ∧ (deployEnv optsBase wWaitFails).2.filter isCreateEnvCall = [] := by
  refine ⟨rfl, rfl, rfl, rfl, rfl, ?_, ?_⟩
  · exact ((deployEnv_sequencing optsBase wWaitFails rfl rfl rfl).2.2.2.1 rfl
      (.collaborator 3) rfl).1
  · exact ((deployEnv_sequencing optsBase wWaitFails rfl rfl rfl).2.2.2.1 rfl
      (.collaborator 3) rfl).2

/-- Claim C6 as stated is false on the code: the prompt's error is indeed
ignored, but the outcome is not forced to "no" — the code keeps the boolean
the erroring prompt returned. Concretely: the prompt reports an error together
with a `true` answer, and deployEnv calls the deployer and returns the
deployer's failure, not success. -/
theorem deployEnv_prompt_error_cex :
    (wPromptErrTrue.confirm confirmEnvPrompt confirmEnvHelp).2 = some (.collaborator 5)
    ∧ optsBase.ShouldSkipDeploy = false
    ∧ (wPromptErrTrue.listEnvironments optsBase.Project).1 = []
    ∧ (deployEnv optsBase wPromptErrTrue).1 = some (.collaborator 6)
    ∧ Call.deployEnvironment (mkDefaultEnv optsBase.Project) ∈
        (deployEnv optsBase wPromptErrTrue).2 := by
  refine ⟨rfl, rfl, rfl, rfl, ?_⟩
  rw [deployEnv_deploy_fails_eq optsBase wPromptErrTrue rfl rfl rfl
    (.collaborator 6) rfl rfl]
  simp

/-- Claim C6 (amended): a deploy-confirmation prompt error is silently
ignored — deployEnv behaves exactly as if the prompt had succeeded with the
same boolean answer, so the error component of the prompter's reply never
affects the result or the calls made; the outcome is treated as "no" exactly
when that boolean answer is false, in which case deployEnv returns success and
the deployer is never called. -/
theorem deployEnv_prompt_error_ignored (opts : InitAppOpts) (w : World) :
    deployEnv opts w =
      deployEnv opts { w with confirm := fun q h => ((w.confirm q h).1, none) }
    ∧ ((w.confirm confirmEnvPrompt confirmEnvHelp).1 = false →
        (deployEnv opts w).1 = none ∧
        (deployEnv opts w).2.filter isDeployStepCall = []) := by
  constructor
  · rfl
  · intro hb
    cases hs : opts.ShouldSkipDeploy with
    | true => simp [deployEnv, hs]
    | false =>
      rcases hl : (w.listEnvironments opts.Project).1 with _ | ⟨env, envs⟩
      · simp [deployEnv, hs, hl, hb, isDeployStepCall, isConfirmCall]
      · simp [deployEnv, hs, hl, isDeployStepCall]

/-- Witness for the amended C6 at concrete inputs: the prompt errors alongside
a `false` answer, and deployEnv returns success without any deployer call. -/
theorem deployEnv_prompt_error_ignored_witness :
    wConfirmNo.confirm confirmEnvPrompt confirmEnvHelp = (false, some (.collaborator 4))
    ∧ (deployEnv optsBase wConfirmNo).1 = none
    ∧ (deployEnv optsBase wConfirmNo).2.filter isDeployStepCall = [] := by
  refine ⟨rfl, ?_, ?_⟩
  · exact ((deployEnv_prompt_error_ignored optsBase wConfirmNo).2 rfl).1
  · exact ((deployEnv_prompt_error_ignored optsBase wConfirmNo).2 rfl).2

/-- Claim C7: Validate succeeds exactly when each of the two names either
passes its validator or fails it with the empty-value error; a name failing
with any other error is reported as the corresponding named-field error (the
project one first); in particular a request with both names empty validates
successfully. -/
theorem Validate_empty_tolerant (opts : InitAppOpts) :
    (Validate opts = none ↔
      ((validateProjectName opts.Project = none ∨
        validateProjectName opts.Project = some errValueEmpty)
       ∧ (validateApplicationName opts.AppName = none ∨
          validateApplicationName opts.AppName = some errValueEmpty)))
    ∧ (∀ e, validateProjectName opts.Project = some e → e ≠ errValueEmpty →
        Validate opts = some (.projectNameInvalid e))
    ∧ (∀ e, (validateProjectName opts.Project = none ∨
             validateProjectName opts.Project = some errValueEmpty) →
        validateApplicationName opts.AppName = some e → e ≠ errValueEmpty →
        Validate opts = some (.appNameInvalid e))
    ∧ Validate { opts with Project := "", AppName := "" } = none := by
  refine ⟨?_, ?_, ?_, rfl⟩
  · rcases hp : validateProjectName opts.Project with _ | e <;>
      rcases ha : validateApplicationName opts.AppName with _ | e2
    all_goals
      first
      | (by_cases h1 : e = errValueEmpty <;> by_cases h2 : e2 = errValueEmpty <;>
          simp_all [Validate])
      | (try by_cases h1 : e = errValueEmpty
         try by_cases h2 : e2 = errValueEmpty
         all_goals simp_all [Validate])
  · intro e hp hne
    simp [Validate, hp, hne]
  · intro e hpok ha hne
    rcases hpok with hp | hp <;> simp [Validate, hp, ha, hne]

/-- Witness for C7 at concrete inputs: a structurally invalid project name is
reported as a named-field error; an invalid application name likewise; both
names empty validate successfully. -/
theorem Validate_empty_tolerant_witness :
    validateProjectName "Bad" = some (.badFormat "Bad")
    ∧ Validate { optsBase with Project := "Bad" } =
        some (.projectNameInvalid (.badFormat "Bad"))
    ∧ Validate { optsBase with AppName := "A pp" } =
        some (.appNameInvalid (.badFormat "A pp"))
    ∧ Validate { optsBase with Project := "", AppName := "" } = none := by
  refine ⟨rfl, ?_, ?_, (Validate_empty_tolerant optsBase).2.2.2⟩
  · exact (Validate_empty_tolerant { optsBase with Project := "Bad" }).2.1
      (.badFormat "Bad") rfl (by decide)
  · exact (Validate_empty_tolerant { optsBase with AppName := "A pp" }).2.2.1
      (.badFormat "A pp") (Or.inl rfl) rfl (by decide)

/-- Claim C8: on the accepted-deploy path, every environment value handed to
begin-deploy, wait-for-completion or the environment registry's create is the
single constructed value whose project is the request's project name, whose
name is the fixed default "test", and whose public-load-balancer attribute is
true — and begin-deploy is in fact called with it. -/
theorem deployEnv_env_value (opts : InitAppOpts) (w : World)
    (hskip : opts.ShouldSkipDeploy = false)
    (henvs : (w.listEnvironments opts.Project).1 = [])
    (hyes : (w.confirm confirmEnvPrompt confirmEnvHelp).1 = true) :
    (∀ env, Call.deployEnvironment env ∈ (deployEnv opts w).2 →
      env = mkDefaultEnv opts.Project)
    ∧ (∀ env, Call.waitForEnvironmentCreation env ∈ (deployEnv opts w).2 →
        env = mkDefaultEnv opts.Project)
    ∧ (∀ env, Call.createEnvironment env ∈ (deployEnv opts w).2 →
        env = mkDefaultEnv opts.Project)
    ∧ Call.deployEnvironment (mkDefaultEnv opts.Project) ∈ (deployEnv opts w).2
    ∧ (mkDefaultEnv opts.Project).Project = opts.Project
    ∧ (mkDefaultEnv opts.Project).Name = defaultEnvironmentName
    ∧ defaultEnvironmentName = "test"
    ∧ (mkDefaultEnv opts.Project).PublicLoadBalancer = true := by
  rcases hd : w.deployEnvironment (mkDefaultEnv opts.Project) with _ | e
  · rcases hw : w.waitForEnvironmentCreation (mkDefaultEnv opts.Project) with _ | e
    · rcases hc : w.createEnvironment (mkDefaultEnv opts.Project) with _ | e
      · rw [deployEnv_all_ok_eq opts w hskip henvs hyes hd hw hc]
        refine ⟨?_, ?_, ?_, by simp, rfl, rfl, rfl, rfl⟩ <;> intro env henv <;>
          simp_all
      · rw [deployEnv_create_fails_eq opts w hskip henvs hyes hd hw e hc]
        refine ⟨?_, ?_, ?_, by simp, rfl, rfl, rfl, rfl⟩ <;> intro env henv <;>
          simp_all
    · rw [deployEnv_wait_fails_eq opts w hskip henvs hyes hd e hw]
      refine ⟨?_, ?_, ?_, by simp, rfl, rfl, rfl, rfl⟩ <;> intro env henv <;>
        simp_all
  · cases hst : errAsStackAlreadyExists (some e)
    · rw [deployEnv_deploy_fails_eq opts w hskip henvs hyes e hd hst]
      refine ⟨?_, ?_, ?_, by simp, rfl, rfl, rfl, rfl⟩ <;> intro env henv <;>
        simp_all
    · rw [deployEnv_stack_exists_eq opts w hskip henvs hyes e hd hst]
      refine ⟨?_, ?_, ?_, by simp, rfl, rfl, rfl, rfl⟩ <;> intro env henv <;>
        simp_all

/-- Witness for C8 at concrete inputs: on the all-success run the deployer is
called and every recorded deploy-step call carries the constructed value
(project "demo", name "test", public load balancer true). -/
theorem deployEnv_env_value_witness :
    optsBase.ShouldSkipDeploy = false
    ∧ (wBase.listEnvironments optsBase.Project).1 = []
    ∧ (wBase.confirm confirmEnvPrompt confirmEnvHelp).1 = true
    ∧ Call.deployEnvironment (mkDefaultEnv optsBase.Project) ∈
        (deployEnv optsBase wBase).2
    ∧ mkDefaultEnv optsBase.Project =
        { Project := "demo", Name := "test", PublicLoadBalancer := true } := by
  refine ⟨rfl, rfl, rfl, ?_, rfl⟩
  exact (deployEnv_env_value optsBase wBase rfl rfl rfl).2.2.2.1

/-- Claim C10: Prepare only ever writes the project field and the staged
existing-projects list — the application name, application type and both
deploy-intent flags are unchanged by it. -/
theorem Prepare_frame (opts : InitAppOpts) (w : World) :
    ((Prepare opts w).1.AppName = opts.AppName)
    ∧ ((Prepare opts w).1.AppType = opts.AppType)
    ∧ ((Prepare opts w).1.ShouldDeploy = opts.ShouldDeploy)
    ∧ ((Prepare opts w).1.ShouldSkipDeploy = opts.ShouldSkipDeploy) := by
  by_cases hp : opts.Project = ""
  · rcases hws : w.wsSummary with e | s <;> simp [Prepare, hp, hws]
  · simp [Prepare, hp]

/-- Ask never reads the ShouldDeploy flag: its error, its trace, and all of
the resulting request except the flag itself are unchanged when the flag is
flipped. -/
theorem Ask_shouldDeploy_aux (p a t : String) (b b2 ssd : Bool) (ex : List String)
    (w : World) :
    (Ask ⟨p, a, t, b, ssd, ex⟩ w).1 = (Ask ⟨p, a, t, b2, ssd, ex⟩ w).1
    ∧ (Ask ⟨p, a, t, b, ssd, ex⟩ w).2.2 = (Ask ⟨p, a, t, b2, ssd, ex⟩ w).2.2
    ∧ (Ask ⟨p, a, t, b, ssd, ex⟩ w).2.1 =
        { (Ask ⟨p, a, t, b2, ssd, ex⟩ w).2.1 with ShouldDeploy := b } := by
  by_cases hp : p = "" <;>
  by_cases hex : ex.length > 0 <;>
  by_cases ha : a = "" <;>
  by_cases ht : t = "" <;>
  rcases hs1 : w.promptSelectOne whichProjectPrompt whichProjectHelp ex with e1 | s1 <;>
  rcases hg1 : w.promptGet projectNamePrompt projectNameHelp with e2 | s2 <;>
  rcases hg2 : w.promptGet appNamePrompt appNameHelp with e3 | s3 <;>
  rcases hs2 : w.promptSelectOne templatePrompt templateHelp [LoadBalancedWebApplication]
    with e4 | s4 <;>
  simp [Ask, projectQuestion, hp, hex, ha, ht, hs1, hg1, hg2, hs2]

/-- Claim C9: the force-deploy flag (ShouldDeploy) has no effect: flipping it
leaves the traces and results of Prepare, Ask, Validate, Execute and deployEnv
unchanged (except for the stored value of the flag itself, which Prepare and
Ask carry through untouched), and even with the flag set the user is still
asked the deploy-confirmation question on the path that reaches it. -/
theorem ShouldDeploy_no_effect (opts : InitAppOpts) (w : World) (b b2 : Bool) :
    (Prepare { opts with ShouldDeploy := b } w).2 =
      (Prepare { opts with ShouldDeploy := b2 } w).2
    ∧ (Prepare { opts with ShouldDeploy := b } w).1 =
        { (Prepare { opts with ShouldDeploy := b2 } w).1 with ShouldDeploy := b }
    ∧ (Ask { opts with ShouldDeploy := b } w).1 =
        (Ask { opts with ShouldDeploy := b2 } w).1
    ∧ (Ask { opts with ShouldDeploy := b } w).2.2 =
        (Ask { opts with ShouldDeploy := b2 } w).2.2
    ∧ (Ask { opts with ShouldDeploy := b } w).2.1 =
        { (Ask { opts with ShouldDeploy := b2 } w).2.1 with ShouldDeploy := b }
    ∧ Validate { opts with ShouldDeploy := b } = Validate { opts with ShouldDeploy := b2 }
    ∧ Execute { opts with ShouldDeploy := b } w = Execute { opts with ShouldDeploy := b2 } w
    ∧ deployEnv { opts with ShouldDeploy := b } w =
        deployEnv { opts with ShouldDeploy := b2 } w
    ∧ (opts.ShouldSkipDeploy = false → (w.listEnvironments opts.Project).1 = [] →
        Call.confirm confirmEnvPrompt confirmEnvHelp ∈
          (deployEnv { opts with ShouldDeploy := true } w).2) := by
  obtain ⟨p, a, t, sd, ssd, ex⟩ := opts
  refine ⟨?_, ?_, (Ask_shouldDeploy_aux p a t b b2 ssd ex w).1,
    (Ask_shouldDeploy_aux p a t b b2 ssd ex w).2.1,
    (Ask_shouldDeploy_aux p a t b b2 ssd ex w).2.2, rfl, rfl, rfl, ?_⟩
  · by_cases hp : p = ""
    · rcases hws : w.wsSummary with e | s <;> simp [Prepare, hp, hws]
    · simp [Prepare, hp]
  · by_cases hp : p = ""
    · rcases hws : w.wsSummary with e | s <;> simp [Prepare, hp, hws]
    · simp [Prepare, hp]
  · intro hssd henvs
    dsimp only at hssd henvs ⊢
    cases hcf : (w.confirm confirmEnvPrompt confirmEnvHelp).1 with
    | false => simp [deployEnv, hssd, henvs, hcf]
    | true =>
      rcases hd : w.deployEnvironment (mkDefaultEnv p) with _ | e
      · rcases hw : w.waitForEnvironmentCreation (mkDefaultEnv p) with _ | e
        · rcases hc : w.createEnvironment (mkDefaultEnv p) with _ | e
          · rw [deployEnv_all_ok_eq _ w hssd henvs hcf hd hw hc]
            simp
          · rw [deployEnv_create_fails_eq _ w hssd henvs hcf hd hw e hc]
            simp
        · rw [deployEnv_wait_fails_eq _ w hssd henvs hcf hd e hw]
          simp
      · cases hst : errAsStackAlreadyExists (some e)
        · rw [deployEnv_deploy_fails_eq _ w hssd henvs hcf e hd hst]
          simp
        · rw [deployEnv_stack_exists_eq _ w hssd henvs hcf e hd hst]
          simp

/-- Witness for C9 at concrete inputs: with the force-deploy flag set (and
no other difference), the confirmation question is still asked. -/
theorem ShouldDeploy_no_effect_witness :
    optsBase.ShouldSkipDeploy = false
    ∧ (wBase.listEnvironments optsBase.Project).1 = []
    ∧ Call.confirm confirmEnvPrompt confirmEnvHelp ∈
        (deployEnv { optsBase with ShouldDeploy := true } wBase).2 :=
  ⟨rfl, rfl, (ShouldDeploy_no_effect optsBase wBase true false).2.2.2.2.2.2.2.2 rfl rfl⟩

end Archer
